import Mathlib

/-!
Verification of the ALMA2040 telescope cost model (`cost_model.py`).

The core of the repository is the function `compute_costs(C, f1, f2, f3,
SNR, integrate, alpha)`: it samples 300 antenna diameters on `[6, 50]`,
solves a quadratic for the required number of new antennas at each
diameter (two regimes, selected by the `integrate` flag), computes the
three cost terms and their total, and locates the minimum of the total
cost curve.  Floating-point numbers are modelled by the real numbers;
the NaN-propagating behaviour of `np.sqrt` on negative inputs is
modelled separately by an `Option ℝ`-valued variant where `none` plays
the role of NaN.
-/

namespace CostModel

/-- `D_12m = 12`, the current antenna size in meters (cost_model.py line 23). -/
noncomputable def D_12m : ℝ := 12

/-- `n_12m = 50`, the current number of antennas (cost_model.py line 24). -/
noncomputable def n_12m : ℝ := 50

/-- The input record of `compute_costs` (its seven arguments, in the
code's names): base cost `C`, cost factors `f1 f2 f3`, sensitivity
improvement `SNR`, regime flag `integrate` and scaling exponent `alpha`. -/
structure CostParameters where
  C : ℝ
  f1 : ℝ
  f2 : ℝ
  f3 : ℝ
  SNR : ℝ
  integrate : Bool
  alpha : ℝ

/-- The output record of `compute_costs` (the dict of line 60-70):
six arrays of 300 samples and three scalars describing the optimum. -/
structure CostCurve where
  D : Fin 300 → ℝ
  na : Fin 300 → ℝ
  cost_ant : Fin 300 → ℝ
  cost_rcv : Fin 300 → ℝ
  cost_corr : Fin 300 → ℝ
  total_cost : Fin 300 → ℝ
  D_opt : ℝ
  C_min : ℝ
  new_antennae : ℤ

/-- `np.linspace(6, 50, 300)` (line 22): the i-th of 300 evenly spaced
samples from 6 to 50, at step `(50 - 6)/(300 - 1)`. -/
noncomputable def linspace (i : Fin 300) : ℝ := 6 + (i : ℝ) * ((50 - 6) / (300 - 1))

/-- `np.argmin` over a 300-sample array: the index of the first
occurrence of the minimum value, by a left-to-right scan. -/
noncomputable def argmin300 (f : Fin 300 → ℝ) : Fin 300 :=
  (List.finRange 300).foldl (fun best i => if f i < f best then i else best) 0

/-- `A_new = π·D²/4` (line 28), collecting area of one new antenna. -/
noncomputable def A_new (D : ℝ) : ℝ := Real.pi * D ^ 2 / 4

/-- `A_old = π·D_12m²/4` (line 29), collecting area of one existing antenna. -/
noncomputable def A_old : ℝ := Real.pi * D_12m ^ 2 / 4

/-- `a = A_new**2` (line 31), leading coefficient of the regime-A quadratic. -/
noncomputable def aA (D : ℝ) : ℝ := (A_new D) ^ 2

/-- `b = 2*n_12m*A_old*A_new - A_new**2` (line 33). -/
noncomputable def bA (D : ℝ) : ℝ := 2 * n_12m * A_old * (A_new D) - (A_new D) ^ 2

/-- `N = n_12m*(n_12m-1)` (line 35), number of ordered existing pairs. -/
noncomputable def NN : ℝ := n_12m * (n_12m - 1)

/-- `c = (1-SNR**2*(1-0.3)**2)*N*A_old**2` (line 37). -/
noncomputable def cA (SNR : ℝ) : ℝ := (1 - SNR ^ 2 * (1 - 0.3) ^ 2) * NN * A_old ^ 2

/-- The discriminant `b**2-4*a*c` under the square root of line 38. -/
noncomputable def discA (SNR D : ℝ) : ℝ := (bA D) ^ 2 - 4 * (aA D) * (cA SNR)

/-- `n2 = (-b + np.sqrt(b**2-4*a*c))/2/a` (line 38): the regime-A
antenna count at one diameter, over the reals. -/
noncomputable def n2A (SNR D : ℝ) : ℝ :=
  (-(bA D) + Real.sqrt (discA SNR D)) / 2 / (aA D)

/-- `c = 2*SNR**2 * (D_12m**2/D**2)**2*(1-0.3)**2 * (n_12m*(n_12m-1)/2)`
(line 46), the constant term of the regime-B quadratic. -/
noncomputable def cB (SNR D : ℝ) : ℝ :=
  2 * SNR ^ 2 * (D_12m ^ 2 / D ^ 2) ^ 2 * (1 - 0.3) ^ 2 * (n_12m * (n_12m - 1) / 2)

/-- `n2 = (1+np.sqrt(1+4*c))/2` (line 47): the regime-B antenna count
at one diameter, over the reals. -/
noncomputable def n2B (SNR D : ℝ) : ℝ := (1 + Real.sqrt (1 + 4 * cB SNR D)) / 2

/-- The `if integrate:` branch of `compute_costs` (lines 27-43 plus the
shared lines 22 and 56-70): antenna counts from the regime-A quadratic,
cost terms of lines 40-43, optimum by first-minimum scan. -/
noncomputable def computeA (p : CostParameters) : CostCurve :=
  let D := linspace
  let n2 : Fin 300 → ℝ := fun i => n2A p.SNR (D i)
  let cost_ant : Fin 300 → ℝ := fun i => p.f1 * n2 i * (D i / D_12m) ^ p.alpha
  let cost_rcv : Fin 300 → ℝ := fun i => p.f2 * n2 i
  let cost_corr : Fin 300 → ℝ := fun i => p.f3 * (n2 i + n_12m) ^ 2
  let total_cost : Fin 300 → ℝ := fun i => p.C + cost_ant i + cost_rcv i + cost_corr i
  let min_index := argmin300 total_cost
  { D := D, na := n2, cost_ant := cost_ant, cost_rcv := cost_rcv,
    cost_corr := cost_corr, total_cost := total_cost,
    D_opt := D min_index, C_min := total_cost min_index,
    new_antennae := round (n2 min_index) }

/-- The `else:` branch of `compute_costs` (lines 45-53 plus the shared
lines 22 and 56-70): antenna counts from the regime-B quadratic, cost
terms of lines 50-53, optimum by first-minimum scan. -/
noncomputable def computeB (p : CostParameters) : CostCurve :=
  let D := linspace
  let n2 : Fin 300 → ℝ := fun i => n2B p.SNR (D i)
  let cost_ant : Fin 300 → ℝ := fun i => p.f1 * n2 i * (D i / D_12m) ^ p.alpha
  let cost_rcv : Fin 300 → ℝ := fun i => p.f2 * n2 i
  let cost_corr : Fin 300 → ℝ := fun i => p.f3 * (n2 i) ^ 2
  let total_cost : Fin 300 → ℝ := fun i => p.C + cost_ant i + cost_rcv i + cost_corr i
  let min_index := argmin300 total_cost
  { D := D, na := n2, cost_ant := cost_ant, cost_rcv := cost_rcv,
    cost_corr := cost_corr, total_cost := total_cost,
    D_opt := D min_index, C_min := total_cost min_index,
    new_antennae := round (n2 min_index) }

/-- `compute_costs` (lines 21-70): dispatch on the `integrate` flag. -/
noncomputable def compute_costs (p : CostParameters) : CostCurve :=
  if p.integrate then computeA p else computeB p

/-- The default parameter set of `cost_model.py` lines 10-18, with
`integrate = [1]` truthy. -/
noncomputable def defaults : CostParameters :=
  { C := 50e6, f1 := 5e6, f2 := 2.5e5, f3 := 6000, SNR := 5,
    integrate := true, alpha := 2.7 }

/-- Spec-side regime-A antenna count, written from the spec's words
(§4.1 Regime A): `A_new = π·D²/4`, `A_old = π·12²/4`, `N0 = 50·49`,
`efficiency_loss = 0.7`, coefficients `a = A_new²`,
`b = 2·n_existing·A_old·A_new − A_new²`,
`c = (1 − sensitivity_gain²·efficiency_loss²)·N0·A_old²`, and the
positive root `n = (−b + √(b²−4ac))/(2a)`. -/
noncomputable def specRegimeA_count (sensitivity_gain D : ℝ) : ℝ :=
  let A_newS := Real.pi * D ^ 2 / 4
  let A_oldS := Real.pi * 12 ^ 2 / 4
  let N0 : ℝ := 50 * 49
  let efficiency_loss : ℝ := 0.7
  let a := A_newS ^ 2
  let b := 2 * 50 * A_oldS * A_newS - A_newS ^ 2
  let c := (1 - sensitivity_gain ^ 2 * efficiency_loss ^ 2) * N0 * A_oldS ^ 2
  (-b + Real.sqrt (b ^ 2 - 4 * a * c)) / (2 * a)

/-- Spec-side regime-B antenna count, written from the spec's words
(§4.1 Regime B): `c = 2·sensitivity_gain²·(D_existing²/D²)²·
efficiency_loss²·(n_existing·(n_existing−1)/2)` with `D_existing = 12`,
`n_existing = 50`, `efficiency_loss = 0.7`, and the positive root
`n = (1 + √(1+4c))/2` of `n² − n − c = 0`. -/
noncomputable def specRegimeB_count (sensitivity_gain D : ℝ) : ℝ :=
  let D_existing : ℝ := 12
  let n_existing : ℝ := 50
  let efficiency_loss : ℝ := 0.7
  let c := 2 * sensitivity_gain ^ 2 * (D_existing ^ 2 / D ^ 2) ^ 2 * efficiency_loss ^ 2 *
    (n_existing * (n_existing - 1) / 2)
  (1 + Real.sqrt (1 + 4 * c)) / 2

/-- The spec's shared antenna-cost formula (§4.1 step 3):
`antenna_cost = antenna_cost_factor · n · (D / D_existing)^scaling_exponent`. -/
noncomputable def antennaCostFormula (f1 alpha n D : ℝ) : ℝ := f1 * n * (D / 12) ^ alpha

/-- The spec's shared receiver-cost formula (§4.1 step 3):
`receiver_cost = receiver_cost_factor · n`. -/
noncomputable def receiverCostFormula (f2 n : ℝ) : ℝ := f2 * n

/-- C1: in Regime A (`integrate_with_existing = true`), at every sampled
diameter the evaluator's antenna count is the positive root
`(−b + √(b²−4ac))/(2a)` of the quadratic with the spec's coefficients
`a = A_new²`, `b = 2·n_existing·A_old·A_new − A_new²`,
`c = (1 − sensitivity_gain²·efficiency_loss²)·N0·A_old²`, where
`A_new = π·D²/4`, `A_old = π·12²/4`, `N0 = 50·49`, `efficiency_loss = 0.7`. -/
theorem C1_regimeA_count_is_positive_root (p : CostParameters) (i : Fin 300) :
    (computeA p).na i = specRegimeA_count p.SNR ((computeA p).D i) := by
  show n2A p.SNR (linspace i) = specRegimeA_count p.SNR (linspace i)
  generalize linspace i = D
  simp only [n2A, specRegimeA_count]
  have ha : aA D = (Real.pi * D ^ 2 / 4) ^ 2 := by
    simp only [aA, A_new]
  have hb : bA D = 2 * 50 * (Real.pi * 12 ^ 2 / 4) * (Real.pi * D ^ 2 / 4) -
      (Real.pi * D ^ 2 / 4) ^ 2 := by
    simp only [bA, A_new, A_old, n_12m, D_12m]
  have hd : discA p.SNR D =
      (2 * 50 * (Real.pi * 12 ^ 2 / 4) * (Real.pi * D ^ 2 / 4) -
        (Real.pi * D ^ 2 / 4) ^ 2) ^ 2 -
      4 * (Real.pi * D ^ 2 / 4) ^ 2 *
        ((1 - p.SNR ^ 2 * (0.7 : ℝ) ^ 2) * (50 * 49) * (Real.pi * 12 ^ 2 / 4) ^ 2) := by
    simp only [discA, aA, bA, cA, A_new, A_old, NN, n_12m, D_12m]
    norm_num
  rw [hb, hd, ha, div_div]

/-- C2: in Regime B (`integrate_with_existing = false`), at every sampled
diameter the evaluator's antenna count is `n = (1 + √(1+4c))/2`, the
positive root of `n² − n − c = 0` with
`c = 2·sensitivity_gain²·(D_existing²/D²)²·efficiency_loss²·
(n_existing·(n_existing−1)/2)`, `D_existing = 12`, `n_existing = 50`,
`efficiency_loss = 0.7`. -/
theorem C2_regimeB_count_is_positive_root (p : CostParameters) (i : Fin 300) :
    (computeB p).na i = specRegimeB_count p.SNR ((computeB p).D i) := by
  show n2B p.SNR (linspace i) = specRegimeB_count p.SNR (linspace i)
  generalize linspace i = D
  simp only [n2B, specRegimeB_count]
  have hc : cB p.SNR D = 2 * p.SNR ^ 2 * ((12 : ℝ) ^ 2 / D ^ 2) ^ 2 * (0.7 : ℝ) ^ 2 *
      (50 * (50 - 1) / 2) := by
    simp only [cB, D_12m, n_12m]
    norm_num
  rw [hc]

/-- C3: for every parameter set and both regimes, at every sampled
diameter the total cost is exactly the base cost plus the three cost
terms: `total_cost[i] = base_cost + antenna_cost[i] + receiver_cost[i]
+ correlator_cost[i]`. -/
theorem C3_total_cost_additive (p : CostParameters) (i : Fin 300) :
    (compute_costs p).total_cost i =
      p.C + (compute_costs p).cost_ant i + (compute_costs p).cost_rcv i +
        (compute_costs p).cost_corr i := by
  cases hp : p.integrate <;> simp [compute_costs, hp, computeA, computeB]

/-- C4: the correlator cost depends on the regime — Regime A uses
`correlator_cost_factor·(n + n_existing)²` with `n_existing = 50`,
Regime B uses `correlator_cost_factor·n²` — while the antenna cost
`antenna_cost_factor·n·(D/12)^scaling_exponent` and the receiver cost
`receiver_cost_factor·n` are the same formula in both regimes. -/
theorem C4_correlator_regime_dependent_other_terms_shared
    (p : CostParameters) (i : Fin 300) :
    (computeA p).cost_corr i = p.f3 * ((computeA p).na i + 50) ^ 2 ∧
    (computeB p).cost_corr i = p.f3 * ((computeB p).na i) ^ 2 ∧
    (computeA p).cost_ant i =
      antennaCostFormula p.f1 p.alpha ((computeA p).na i) ((computeA p).D i) ∧
    (computeB p).cost_ant i =
      antennaCostFormula p.f1 p.alpha ((computeB p).na i) ((computeB p).D i) ∧
    (computeA p).cost_rcv i = receiverCostFormula p.f2 ((computeA p).na i) ∧
    (computeB p).cost_rcv i = receiverCostFormula p.f2 ((computeB p).na i) := by
  refine ⟨?_, ?_, ?_, ?_, ?_, ?_⟩ <;>
    simp [computeA, computeB, antennaCostFormula, receiverCostFormula, n_12m, D_12m]

lemma compute_costs_D (p : CostParameters) : (compute_costs p).D = linspace := by
  cases hp : p.integrate <;> simp [compute_costs, hp, computeA, computeB]

lemma linspace_six_le (i : Fin 300) : 6 ≤ linspace i := by
  simp only [linspace]
  have h : (0 : ℝ) ≤ (i : ℝ) * ((50 - 6) / (300 - 1)) := by positivity
  linarith

lemma linspace_pos (i : Fin 300) : 0 < linspace i := lt_of_lt_of_le (by norm_num) (linspace_six_le i)

lemma linspace_strictMono : StrictMono linspace := by
  intro i j hij
  simp only [linspace]
  have hlt : (i : ℝ) < (j : ℝ) := by exact_mod_cast hij
  have hstep : (0 : ℝ) < (50 - 6) / (300 - 1) := by norm_num
  have := mul_lt_mul_of_pos_right hlt hstep
  linarith

lemma linspace_zero : linspace ⟨0, by norm_num⟩ = 6 := by
  norm_num [linspace]

lemma linspace_last : linspace ⟨299, by norm_num⟩ = 50 := by
  norm_num [linspace]

lemma cB_nonneg (SNR D : ℝ) : 0 ≤ cB SNR D := by
  simp only [cB, n_12m, D_12m]
  positivity

lemma n2B_ge_one (SNR D : ℝ) : 1 ≤ n2B SNR D := by
  have h0 : 0 ≤ cB SNR D := cB_nonneg SNR D
  have h1 : (1 : ℝ) ≤ Real.sqrt (1 + 4 * cB SNR D) :=
    calc (1 : ℝ) = Real.sqrt 1 := (Real.sqrt_one).symm
      _ ≤ Real.sqrt (1 + 4 * cB SNR D) := Real.sqrt_le_sqrt (by linarith)
  simp only [n2B]
  linarith

/-- C9: for every parameter set, the diameters array is the fixed grid
`np.linspace(6, 50, 300)`: 300 evenly spaced (constant step
`(50−6)/299`), strictly increasing values from 6 to 50 inclusive; no
parameter influences the grid. -/
theorem C9_diameter_grid_fixed (p : CostParameters) :
    (compute_costs p).D = linspace ∧
    StrictMono (compute_costs p).D ∧
    (compute_costs p).D ⟨0, by norm_num⟩ = 6 ∧
    (compute_costs p).D ⟨299, by norm_num⟩ = 50 ∧
    ∀ i : Fin 299,
      (compute_costs p).D i.succ - (compute_costs p).D i.castSucc = (50 - 6) / (300 - 1) := by
  rw [compute_costs_D]
  refine ⟨rfl, linspace_strictMono, linspace_zero, linspace_last, fun i => ?_⟩
  simp only [linspace, Fin.val_succ, Fin.coe_castSucc]
  push_cast
  ring

/-- C10: in Regime B the quantity under the square root, `1 + 4c`, is
at least 1 for every real parameter value and every sampled diameter
(`c` is a product of squares and nonnegative constants), so the
negative-discriminant condition can never occur in this regime, and the
computed antenna count is at least 1 at every sampled diameter. -/
theorem C10_regimeB_discriminant_nonneg_count_ge_one
    (p : CostParameters) (i : Fin 300) :
    0 ≤ cB p.SNR ((computeB p).D i) ∧
    1 ≤ 1 + 4 * cB p.SNR ((computeB p).D i) ∧
    1 ≤ (computeB p).na i := by
  have hD : (computeB p).D = linspace := rfl
  rw [hD]
  have h0 : 0 ≤ cB p.SNR (linspace i) := cB_nonneg _ _
  exact ⟨h0, by linarith, n2B_ge_one _ _⟩

/-- The default parameter set with the sensitivity slider at its
minimum value 1 (slider range starts at 1, line 104). -/
noncomputable def defaultsSNR1 : CostParameters := { defaults with SNR := 1 }

/-- The default parameter set with the integrate checkbox cleared
(`integrate = 0` falsy, line 119). -/
noncomputable def defaultsStandalone : CostParameters := { defaults with integrate := false }

lemma aA_pos (D : ℝ) (hD : 0 < D) : 0 < aA D := by
  simp only [aA, A_new]
  positivity

lemma bA_six : bA 6 = 32319 * Real.pi ^ 2 := by
  simp only [bA, A_new, A_old, n_12m, D_12m]
  ring

lemma cA_one : cA 1 = 1619352 * Real.pi ^ 2 := by
  simp only [cA, NN, n_12m, A_old, D_12m]
  norm_num
  ring

lemma n2A_one_six_neg : n2A 1 6 < 0 := by
  have ha : 0 < aA 6 := aA_pos 6 (by norm_num)
  have hπ := Real.pi_pos
  have hb : 0 < bA 6 := by rw [bA_six]; positivity
  have hc : 0 < cA 1 := by rw [cA_one]; positivity
  have hdisc : discA 1 6 < (bA 6) ^ 2 := by
    simp only [discA]
    nlinarith [mul_pos ha hc]
  have hs : Real.sqrt (discA 1 6) < bA 6 := (Real.sqrt_lt' hb).mpr hdisc
  simp only [n2A]
  have h2 : (-(bA 6) + Real.sqrt (discA 1 6)) / 2 < 0 := by linarith
  exact div_neg_of_neg_of_pos h2 ha

lemma cA_nonpos (SNR : ℝ) (h : 10 / 7 ≤ SNR) : cA SNR ≤ 0 := by
  simp only [cA, NN, n_12m, A_old, D_12m]
  have h2 : ((10 : ℝ) / 7) ^ 2 ≤ SNR ^ 2 := pow_le_pow_left₀ (by norm_num) h 2
  have hfac : (1 - SNR ^ 2 * ((1 : ℝ) - 0.3) ^ 2) ≤ 0 := by nlinarith
  have hpos : (0 : ℝ) ≤ (50 * (50 - 1)) * (Real.pi * 12 ^ 2 / 4) ^ 2 := by positivity
  nlinarith

lemma n2A_nonneg_of_gain (SNR D : ℝ) (hSNR : 10 / 7 ≤ SNR) (hD : 0 < D) :
    0 ≤ n2A SNR D := by
  have ha : 0 < aA D := aA_pos D hD
  have hc : cA SNR ≤ 0 := cA_nonpos SNR hSNR
  have hdisc : (bA D) ^ 2 ≤ discA SNR D := by
    simp only [discA]
    nlinarith [mul_nonpos_of_nonneg_of_nonpos ha.le hc]
  have hs : bA D ≤ Real.sqrt (discA SNR D) :=
    calc bA D ≤ |bA D| := le_abs_self _
      _ = Real.sqrt ((bA D) ^ 2) := (Real.sqrt_sq_eq_abs _).symm
      _ ≤ Real.sqrt (discA SNR D) := Real.sqrt_le_sqrt hdisc
  simp only [n2A]
  exact div_nonneg (div_nonneg (by linarith) (by norm_num)) ha.le

/-- C6 counterexample: at the default parameters with
`sensitivity_gain = 1` (a valid value: the slider's own minimum) in
Regime A, the computed antenna count at the first sampled diameter
`D = 6` is negative — both roots of the quadratic are negative there,
and the code's "positive root" formula returns the larger negative
root, refuting `antenna_count[i] ≥ 0` for all valid parameters. -/
theorem C6_counterexample :
    defaultsSNR1.integrate = true ∧ 1 ≤ defaultsSNR1.SNR ∧
    (compute_costs defaultsSNR1).na ⟨0, by norm_num⟩ < 0 := by
  refine ⟨rfl, by norm_num [defaultsSNR1, defaults], ?_⟩
  have hna : (compute_costs defaultsSNR1).na ⟨0, by norm_num⟩ =
      n2A 1 (linspace ⟨0, by norm_num⟩) := rfl
  rw [hna, linspace_zero]
  exact n2A_one_six_neg

/-- C6 amended: the computed antenna count is nonnegative at every
sampled diameter in Regime B for every parameter set, and in Regime A
whenever `sensitivity_gain ≥ 10/7` (i.e. `sensitivity_gain ·
efficiency_loss ≥ 1`, which makes the constant coefficient `c`
nonpositive); for `1 ≤ sensitivity_gain < 10/7` Regime A can produce
negative counts. -/
theorem C6_amended_count_nonneg (p : CostParameters) (i : Fin 300)
    (h : p.integrate = false ∨ 10 / 7 ≤ p.SNR) :
    0 ≤ (compute_costs p).na i := by
  cases hp : p.integrate
  · have hB : compute_costs p = computeB p := by simp [compute_costs, hp]
    rw [hB]
    have h1 : 1 ≤ n2B p.SNR (linspace i) := n2B_ge_one p.SNR (linspace i)
    show (0 : ℝ) ≤ n2B p.SNR (linspace i)
    linarith
  · have hSNR : 10 / 7 ≤ p.SNR := by
      rcases h with h | h
      · rw [hp] at h; simp at h
      · exact h
    have hA : compute_costs p = computeA p := by simp [compute_costs, hp]
    rw [hA]
    show (0 : ℝ) ≤ n2A p.SNR (linspace i)
    exact n2A_nonneg_of_gain p.SNR (linspace i) hSNR (linspace_pos i)

/-- Witness for `C6_amended_count_nonneg` at the default parameters in
Regime B and the first sampled diameter. -/
theorem C6_amended_witness :
    (defaultsStandalone.integrate = false ∨ 10 / 7 ≤ defaultsStandalone.SNR) ∧
    0 ≤ (compute_costs defaultsStandalone).na ⟨0, by norm_num⟩ :=
  ⟨Or.inl rfl, C6_amended_count_nonneg defaultsStandalone ⟨0, by norm_num⟩ (Or.inl rfl)⟩

lemma cB_one_twelve : cB 1 12 = 1200.5 := by
  simp only [cB, D_12m, n_12m]
  norm_num

lemma n2B_one_twelve : n2B 1 12 = (1 + Real.sqrt 4803) / 2 := by
  simp only [n2B]
  rw [cB_one_twelve]
  norm_num

lemma sqrt_4803_bounds : 69 < Real.sqrt 4803 ∧ Real.sqrt 4803 < 70 :=
  ⟨(Real.lt_sqrt (by norm_num)).mpr (by norm_num),
   (Real.sqrt_lt' (by norm_num)).mpr (by norm_num)⟩

lemma n2B_one_twelve_gt : 35 < n2B 1 12 := by
  rw [n2B_one_twelve]
  have h := sqrt_4803_bounds.1
  linarith

lemma n2B_one_twelve_lt : n2B 1 12 < 36 := by
  rw [n2B_one_twelve]
  have h := sqrt_4803_bounds.2
  linarith

/-- C7 counterexample: in Regime B with `sensitivity_gain = 1` the
antenna count at `D = D_existing = 12` is not approximately 0 — it lies
strictly between 35 and 36 (the efficiency-loss factor `0.7²` means a
standalone array must still supply `n·(n−1) = 0.49·50·49` baselines) —
and the correlator cost there (at the default factor 6000) exceeds
7·10⁶, not approximately 0. -/
theorem C7_counterexample :
    ¬ |n2B 1 12| ≤ 1 ∧ ¬ |6000 * n2B 1 12 ^ 2| ≤ 1 ∧
    35 < n2B 1 12 ∧ n2B 1 12 < 36 := by
  have h35 := n2B_one_twelve_gt
  have h36 := n2B_one_twelve_lt
  refine ⟨?_, ?_, h35, h36⟩
  · intro h
    have := abs_le.mp h
    linarith [this.2]
  · intro h
    have hsq : (1225 : ℝ) < n2B 1 12 ^ 2 := by nlinarith
    have := abs_le.mp h
    nlinarith [this.2]

/-- C7 amended: in Regime B with `sensitivity_gain = 1` at
`D = D_existing = 12` the antenna count `n` satisfies the exact pair
budget `n·(n−1) = efficiency_loss²·n_existing·(n_existing−1) = 1200.5`,
so `35 < n < 36` (≈ `0.7·n_existing`, not ≈ 0) and the correlator cost
`correlator_cost_factor·n²` exceeds `1225·correlator_cost_factor`
rather than being ≈ 0. -/
theorem C7_amended_trivial_solution :
    n2B 1 12 * (n2B 1 12 - 1) = 1200.5 ∧
    35 < n2B 1 12 ∧ n2B 1 12 < 36 ∧
    1225 < n2B 1 12 ^ 2 := by
  have h35 := n2B_one_twelve_gt
  have h36 := n2B_one_twelve_lt
  have hs2 : Real.sqrt 4803 ^ 2 = 4803 := Real.sq_sqrt (by norm_num)
  refine ⟨?_, h35, h36, by nlinarith⟩
  rw [n2B_one_twelve]
  linear_combination hs2 / 4

lemma compute_costs_cost_ant (p : CostParameters) (i : Fin 300) :
    (compute_costs p).cost_ant i =
      p.f1 * (compute_costs p).na i * (linspace i / D_12m) ^ p.alpha := by
  cases hp : p.integrate <;> simp [compute_costs, hp, computeA, computeB]

lemma na_alpha_indep (p : CostParameters) (α : ℝ) (i : Fin 300) :
    (compute_costs { p with alpha := α }).na i = (compute_costs p).na i := by
  cases hp : p.integrate <;> simp [compute_costs, hp, computeA, computeB]

/-- C8: holding every other parameter fixed, a strictly larger
`scaling_exponent` strictly increases the antenna cost at every sampled
diameter `D > 12` and strictly decreases it at every sampled diameter
`D < 12`, in either regime, provided the antenna cost factor and the
computed antenna count at that diameter are positive (the count does
not depend on the exponent). -/
theorem C8_antenna_cost_monotone_in_exponent (p : CostParameters) (α α' : ℝ)
    (i : Fin 300) (hαα : α < α') (hf : 0 < p.f1)
    (hn : 0 < (compute_costs p).na i) :
    (12 < (compute_costs p).D i →
      (compute_costs { p with alpha := α }).cost_ant i <
        (compute_costs { p with alpha := α' }).cost_ant i) ∧
    ((compute_costs p).D i < 12 →
      (compute_costs { p with alpha := α' }).cost_ant i <
        (compute_costs { p with alpha := α }).cost_ant i) := by
  rw [compute_costs_D] at *
  have hca := compute_costs_cost_ant { p with alpha := α } i
  have hca' := compute_costs_cost_ant { p with alpha := α' } i
  rw [hca, hca']
  dsimp only
  simp only [na_alpha_indep]
  have hfn : 0 < p.f1 * (compute_costs p).na i := mul_pos hf hn
  have hD12 : D_12m = 12 := rfl
  constructor
  · intro h12
    have hbase : 1 < linspace i / D_12m := by
      rw [hD12, lt_div_iff₀ (by norm_num)]
      linarith
    have := Real.rpow_lt_rpow_of_exponent_lt hbase hαα
    exact mul_lt_mul_of_pos_left this hfn
  · intro h12
    have hbase0 : 0 < linspace i / D_12m := by
      rw [hD12]
      exact div_pos (linspace_pos i) (by norm_num)
    have hbase1 : linspace i / D_12m < 1 := by
      rw [hD12, div_lt_one (by norm_num)]
      linarith
    have := Real.rpow_lt_rpow_of_exponent_gt hbase0 hbase1 hαα
    exact mul_lt_mul_of_pos_left this hfn

/-- Witness for `C8_antenna_cost_monotone_in_exponent` at the default
parameters in Regime B, exponents 0 < 1, and the last sampled diameter
`D = 50 > 12`. -/
theorem C8_witness :
    ((0 : ℝ) < 1 ∧ 0 < defaultsStandalone.f1 ∧
      0 < (compute_costs defaultsStandalone).na ⟨299, by norm_num⟩ ∧
      12 < (compute_costs defaultsStandalone).D ⟨299, by norm_num⟩) ∧
    (compute_costs { defaultsStandalone with alpha := 0 }).cost_ant ⟨299, by norm_num⟩ <
      (compute_costs { defaultsStandalone with alpha := 1 }).cost_ant ⟨299, by norm_num⟩ := by
  have hna : 0 < (compute_costs defaultsStandalone).na ⟨299, by norm_num⟩ := by
    have hB : compute_costs defaultsStandalone = computeB defaultsStandalone := rfl
    rw [hB]
    have := n2B_ge_one defaultsStandalone.SNR (linspace ⟨299, by norm_num⟩)
    show (0 : ℝ) < n2B defaultsStandalone.SNR (linspace ⟨299, by norm_num⟩)
    linarith
  have hD : 12 < (compute_costs defaultsStandalone).D ⟨299, by norm_num⟩ := by
    rw [compute_costs_D, linspace_last]
    norm_num
  have hf : 0 < defaultsStandalone.f1 := by norm_num [defaultsStandalone, defaults]
  exact ⟨⟨by norm_num, hf, hna, hD⟩,
    (C8_antenna_cost_monotone_in_exponent defaultsStandalone 0 1 ⟨299, by norm_num⟩
      (by norm_num) hf hna).1 hD⟩

/-- `np.sqrt` with its floating-point semantics: on a negative input it
returns NaN (and numpy emits only a RuntimeWarning — no exception is
raised and evaluation continues). NaN is modelled as `none`. -/
noncomputable def sqrt_fp (x : ℝ) : Option ℝ :=
  if x < 0 then none else some (Real.sqrt x)

/-- Line 38 under floating-point semantics: the regime-A antenna count,
with the NaN produced by `np.sqrt` of a negative discriminant
propagating through the remaining arithmetic. -/
noncomputable def n2A_fp (SNR D : ℝ) : Option ℝ :=
  (sqrt_fp (discA SNR D)).map fun s => (-(bA D) + s) / 2 / (aA D)

/-- Line 43 under floating-point semantics: the regime-A total cost at
one sampled diameter; a NaN antenna count propagates into every cost
term and into the total. -/
noncomputable def totalA_fp (p : CostParameters) (i : Fin 300) : Option ℝ :=
  (n2A_fp p.SNR (linspace i)).map fun n =>
    p.C + p.f1 * n * (linspace i / D_12m) ^ p.alpha + p.f2 * n + p.f3 * (n + n_12m) ^ 2

/-- The default parameter set with `SNR = 0`, under which the regime-A
discriminant is negative at the largest sampled diameters. -/
noncomputable def defaultsSNR0 : CostParameters := { defaults with SNR := 0 }

lemma discA_zero_fifty_neg : discA 0 50 < 0 := by
  have h : discA 0 50 = -1503974609375 * Real.pi ^ 4 := by
    simp only [discA, aA, bA, cA, A_new, A_old, NN, n_12m, D_12m]
    norm_num
    ring
  rw [h]
  have hπ : 0 < Real.pi ^ 4 := by positivity
  nlinarith

lemma discA_neg_at_last : discA defaultsSNR0.SNR (linspace ⟨299, by norm_num⟩) < 0 := by
  have hS : defaultsSNR0.SNR = 0 := rfl
  rw [hS, linspace_last]
  exact discA_zero_fifty_neg

/-- C5 counterexample: at the default parameters with `SNR = 0` the
regime-A discriminant is negative at the sampled diameter `D = 50`
(index 299), yet the evaluator does not fail: `compute_costs` contains
no error check, `np.sqrt` yields NaN there, and the NaN propagates
silently into the antenna count and the total cost at that index. -/
theorem C5_counterexample :
    discA defaultsSNR0.SNR (linspace ⟨299, by norm_num⟩) < 0 ∧
    n2A_fp defaultsSNR0.SNR (linspace ⟨299, by norm_num⟩) = none ∧
    totalA_fp defaultsSNR0 ⟨299, by norm_num⟩ = none := by
  have hd := discA_neg_at_last
  have hsqrt : sqrt_fp (discA defaultsSNR0.SNR (linspace ⟨299, by norm_num⟩)) = none := by
    simp only [sqrt_fp, if_pos hd]
  have hn : n2A_fp defaultsSNR0.SNR (linspace ⟨299, by norm_num⟩) = none := by
    simp only [n2A_fp, hsqrt, Option.map_none']
  refine ⟨hd, hn, ?_⟩
  simp only [totalA_fp, hn, Option.map_none']

/-- C5 amended: when the regime-A discriminant is negative at a sampled
diameter, the evaluator does not raise a domain error — the square root
evaluates to NaN, which propagates into the antenna count and the total
cost at that diameter (silent NaN, no fail-fast); in Regime B the
discriminant is never negative. -/
theorem C5_amended_nan_propagates (p : CostParameters) (i : Fin 300)
    (h : discA p.SNR (linspace i) < 0) :
    n2A_fp p.SNR (linspace i) = none ∧ totalA_fp p i = none := by
  have hsqrt : sqrt_fp (discA p.SNR (linspace i)) = none := by
    simp only [sqrt_fp, if_pos h]
  have hn : n2A_fp p.SNR (linspace i) = none := by
    simp only [n2A_fp, hsqrt, Option.map_none']
  exact ⟨hn, by simp only [totalA_fp, hn, Option.map_none']⟩

/-- Witness for `C5_amended_nan_propagates` at the default parameters
with `SNR = 0` and the last sampled diameter. -/
theorem C5_amended_witness :
    discA defaultsSNR0.SNR (linspace ⟨299, by norm_num⟩) < 0 ∧
    (n2A_fp defaultsSNR0.SNR (linspace ⟨299, by norm_num⟩) = none ∧
      totalA_fp defaultsSNR0 ⟨299, by norm_num⟩ = none) :=
  ⟨discA_neg_at_last,
    C5_amended_nan_propagates defaultsSNR0 ⟨299, by norm_num⟩ discA_neg_at_last⟩

end CostModel
